import Mathlib

/-!
Verification of the MCP tool-integration layer of the `ai-agent` repository
(`app/mcp/client.py` and `app/mcp/manager.py`).

The Python code is shallowly embedded as follows.

* Python `str` is `String` (logically a list of characters); splitting on the
  first occurrence of `"__"` (`str.split("__", 1)` guarded by `"__" in s`) is
  the recursive function `splitDunder` on the character list.
* A JSON value is the inductive type `Json`; a tool's JSON-Schema fragment is
  `PropSchema`/`InputSchema` (python dicts become ordered association lists,
  `dict.get` with a default becomes an `Option` read).
* The pydantic layer is modelled down to the two facts the code depends on:
  `Field(default=d)` stores the default verbatim except that an explicit
  `Ellipsis` argument is normalised to `PydanticUndefined` (pydantic v2
  `FieldInfo.__init__`), and a generated model field is required exactly when
  its stored default is `PydanticUndefined` (`FieldInfo.is_required`).
* `MCPClient` and `MCPToolManager` are records of their mutable attributes;
  every Python method that mutates `self` becomes a function returning the
  updated record.  Network and subprocess I/O is abstracted by oracle
  arguments: a `ConnectOutcome` describes how one `connect()` attempt ends
  (transport failure before the protocol session is assigned, failure after
  the session is assigned but during initialize/tool listing, or success with
  a tool catalog), and a `CallOutcome` describes how one
  `session.call_tool()` round trip ends.  Raised exceptions become explicit
  result constructors carrying the server name used in the message.
-/

/-- JSON values, used for schema defaults and tool-call arguments. -/
inductive Json where
  | null
  | jbool (b : Bool)
  | jnum (n : Int)
  | jstr (s : String)
  | jarr (xs : List Json)
  | jobj (kvs : List (String × Json))

/-- The `"type"` entry of a JSON-Schema property: absent, a single type name,
or a list of type names (e.g. `["string", "null"]`). -/
inductive SchemaType where
  | absent
  | single (typeName : String)
  | multi (typeNames : List String)

/-- One property schema, as read by `_json_schema_to_pydantic_field`
(`manager.py` lines 18-39): the `"type"`, `"description"` and `"default"`
entries; `none` models an absent key. -/
structure PropSchema where
  type_ : SchemaType
  description : Option String
  default : Option Json

/-- A tool input schema, as read by `_create_tool_input_model` (`manager.py`
lines 42-59): the `"properties"` map in declaration order and the
`"required"` list. -/
structure InputSchema where
  properties : List (String × PropSchema)
  required : List String

/-- The base Python types appearing in `type_mapping` (`manager.py`
lines 24-31). -/
inductive PyKind where
  | str
  | int
  | float
  | bool
  | list
  | dict
deriving DecidableEq

/-- A Python type annotation produced by the translator: a base kind,
optionally unioned with `None` (`python_type | None`). -/
structure PyType where
  base : PyKind
  nullable : Bool
deriving DecidableEq

/-- The default stored in a pydantic `FieldInfo`: the `Ellipsis` sentinel, the
pydantic v2 `PydanticUndefined` sentinel, or a concrete value. -/
inductive DefaultVal where
  | ellipsis
  | undefined
  | val (v : Json)

/-- Test for the Python expression `x is ...` (identity with `Ellipsis`). -/
def DefaultVal.isEllipsis : DefaultVal → Bool
  | .ellipsis => true
  | .undefined => false
  | .val _ => false

/-- A pydantic `FieldInfo` as produced by `Field(default=..., description=...)`:
the stored default and the description. -/
structure FieldInfo where
  default : DefaultVal
  description : String

/-- Model of pydantic v2 `Field(default=d, description=s)`.  `FieldInfo.__init__`
normalises an `Ellipsis` default to `PydanticUndefined` (pydantic v2
`fields.py`: `if self.default is Ellipsis: self.default = PydanticUndefined`),
so the stored default is never the `Ellipsis` object itself. -/
def pydanticFieldInit (default : DefaultVal) (description : String) : FieldInfo :=
  { default :=
      match default with
      | .ellipsis => .undefined
      | .undefined => .undefined
      | .val v => .val v,
    description := description }

/-- Model of pydantic v2 `FieldInfo.is_required()`: a generated model field is
required exactly when its stored default is `PydanticUndefined`. -/
def FieldInfo.isRequired (f : FieldInfo) : Bool :=
  match f.default with
  | .undefined => true
  | .ellipsis => false
  | .val _ => false

/-- The fixed table `type_mapping` of `_json_schema_to_pydantic_field`
(`manager.py` lines 24-31), with the `.get(json_type, str)` fallback to `str`
for unknown type names. -/
def typeMapping : String → PyKind
  | "string" => .str
  | "integer" => .int
  | "number" => .float
  | "boolean" => .bool
  | "array" => .list
  | "object" => .dict
  | _ => .str

/-- Embedding of `_json_schema_to_pydantic_field` (`manager.py` lines 18-39).
`json_type = schema.get("type", "string")`, `default = schema.get("default", ...)`.
When `"type"` is a list, `type_mapping.get(json_type, str)` on line 33 raises
`TypeError: unhashable type: 'list'` (a Python `dict.get` hashes its key), so
the conditional-expression nullable handling on lines 36-37 is never reached;
the failure is modelled as `Except.error`.  On success the returned pair is
the base type (never unioned with `None` here) and the `Field` record. -/
def jsonSchemaToPydanticField (name : String) (schema : PropSchema) :
    Except String (PyType × FieldInfo) :=
  let default : DefaultVal :=
    match schema.default with
    | some v => .val v
    | none => .ellipsis
  let description := schema.description.getD ""
  match schema.type_ with
  | .multi _ => .error ("unhashable type while converting field " ++ name)
  | .single t => .ok (⟨typeMapping t, false⟩, pydanticFieldInit default description)
  | .absent => .ok (⟨typeMapping "string", false⟩, pydanticFieldInit default description)

/-- The field-building loop of `_create_tool_input_model` (`manager.py` lines
47-56), over the properties in declaration order.  Line 52 tests
`prop_name not in required and field_info.default is ...`; when it holds the
field is rebuilt as `Field(default=None, description=...)` and the type is
unioned with `None`.  Any exception from the per-property translation
propagates (modelled by `Except`). -/
def createFields (required : List String) :
    List (String × PropSchema) → Except String (List (String × PyType × FieldInfo))
  | [] => .ok []
  | (n, s) :: rest =>
    match jsonSchemaToPydanticField n s with
    | .error e => .error e
    | .ok (t, f) =>
      let tf : PyType × FieldInfo :=
        if (¬n ∈ required) ∧ f.default.isEllipsis = true then
          ({ t with nullable := true }, pydanticFieldInit (.val .null) f.description)
        else (t, f)
      match createFields required rest with
      | .error e => .error e
      | .ok fs => .ok ((n, tf.1, tf.2) :: fs)

/-- Embedding of `_create_tool_input_model` (`manager.py` lines 42-59): reads
`properties` (default `{}`) and `required` (default `[]`) and builds the field
list; the generated model's class name (line 58) carries no semantics and is
elided.  The result models the pydantic model created by `create_model`: an
ordered list of (field name, annotation, FieldInfo). -/
def createToolInputModel (toolName : String) (inputSchema : InputSchema) :
    Except String (List (String × PyType × FieldInfo)) :=
  createFields inputSchema.required inputSchema.properties

/-- An MCP tool definition as delivered by the server
(`mcp.types.Tool`: name, optional description, input schema). -/
structure MCPTool where
  name : String
  description : Option String
  inputSchema : InputSchema

/-- A content block of an MCP tool-call response.  `TextContent` carries a
`text` attribute, `ImageContent`/`AudioContent` carry a `data` attribute
(modelled as a string payload), and `EmbeddedResource` carries neither, so the
`hasattr` chain of `client.py` lines 131-135 skips it. -/
inductive ContentBlock where
  | text (payload : String)
  | data (payload : String)
  | resource
deriving DecidableEq

/-- The payload extraction of `client.py` lines 131-135: `block.text` if
present, else `block.data` if present, else the block is skipped. -/
def extractPayload : ContentBlock → Option String
  | .text p => some p
  | .data p => some p
  | .resource => none

/-- `MCPServerConfig` (`client.py` lines 19-35).  Only the fields the verified
claims depend on are carried; `url`, `command`, `args`, `env`, `timeout` and
the `__post_init__` transport validation concern connection I/O, which the
connect oracle abstracts. -/
structure MCPServerConfig where
  name : String
  transport : String
  enabled : Bool

/-- The mutable state of one `MCPClient` (`client.py` lines 44-48):
`session` records whether `self.session` is a protocol-session object
(`true`) or `None` (`false`); `_tools` is the cached catalog; `_connected`
is the state flag. -/
structure MCPClient where
  config : MCPServerConfig
  session : Bool
  tools : List MCPTool
  connected : Bool

/-- The `name` property of `MCPClient` (`client.py` lines 50-52). -/
def MCPClient.name (c : MCPClient) : String :=
  c.config.name

/-- `MCPClient.__init__` (`client.py` lines 44-48): no session, empty catalog,
disconnected. -/
def MCPClient.init (config : MCPServerConfig) : MCPClient :=
  { config := config, session := false, tools := [], connected := false }

/-- `MCPClient.disconnect` (`client.py` lines 149-182): a no-op when not
connected; otherwise clears the connected flag and the session handle.
Transport teardown failures are caught and logged, never propagated. -/
def MCPClient.disconnect (c : MCPClient) : MCPClient :=
  if c.connected then { c with connected := false, session := false } else c

/-- Oracle for one `connect()` attempt.
`transportFail`: the transport/stream setup raises before `self.session` is
assigned (`client.py` lines 88-90 / 101-103).
`listFail`: `self.session` is assigned, then `initialize()` or
`list_tools()` raises (lines 91-92 / 104-105 / 107-114).
`ok ts`: the handshake succeeds and `list_tools` returns the catalog `ts`. -/
inductive ConnectOutcome where
  | transportFail
  | listFail
  | ok (tools : List MCPTool)

/-- Embedding of `MCPClient.connect` (`client.py` lines 62-84).  If already
connected it first performs a full `disconnect()`.  On any failure the
`except` branch sets `_connected = False` and re-raises (the session handle
and the tool cache keep whatever value they had at the raise point); on
success the catalog is cached and `_connected = True`.  The returned `Bool`
is `true` exactly when `connect` returns without raising. -/
def MCPClient.connect (c : MCPClient) (outcome : ConnectOutcome) : MCPClient × Bool :=
  let c0 := if c.connected then c.disconnect else c
  match outcome with
  | .transportFail => ({ c0 with connected := false }, false)
  | .listFail => ({ c0 with session := true, connected := false }, false)
  | .ok ts => ({ c0 with session := true, tools := ts, connected := true }, true)

/-- The normalized value a session-level `call_tool` can return
(`client.py` lines 128-139): a single unwrapped payload, an ordered sequence
of payloads, or Python `None` when the response carries no content blocks. -/
inductive CallValue where
  | single (payload : String)
  | seq (payloads : List String)
  | noContent
deriving DecidableEq

/-- The outcome of one session-level `call_tool` as observed by `MCPClient`:
either the server responds with a list of content blocks, or the transport
fails mid-call. -/
inductive CallOutcome where
  | success (content : List ContentBlock)
  | transportFail

/-- The result of `MCPClient.call_tool`: the guard's
`RuntimeError(f"[{self.name}] Not connected")` (line 121), the
`RuntimeError(f"MCP server '{self.name}' disconnected")` raised after a
mid-call transport failure (line 146), or a normalized value.  Both error
constructors carry the server name used in the message. -/
inductive ClientCallResult where
  | notConnectedError (server : String)
  | disconnectedError (server : String)
  | value (v : CallValue)
deriving DecidableEq

/-- Embedding of `MCPClient.call_tool` (`client.py` lines 116-146).  The
not-connected guard on line 120 tests `self.session` (the handle), not the
`_connected` flag.  On a successful round trip the content blocks are
normalized: payloads are extracted by the `hasattr` chain, a single extracted
payload is returned unwrapped (`contents[0] if len(contents) == 1 else
contents`), and an empty `result.content` yields `None`.  On a transport
failure the `except` branch clears the flag and the handle and raises the
disconnected error.  The final `Bool` is `true` exactly when the invocation
was forwarded to `session.call_tool` (i.e. the guard passed). -/
def MCPClient.callTool (c : MCPClient) (toolName : String)
    (arguments : List (String × Json)) (outcome : CallOutcome) :
    MCPClient × ClientCallResult × Bool :=
  if c.session = false then (c, .notConnectedError c.name, false)
  else
    match outcome with
    | .success content =>
      if content.isEmpty then (c, .value .noContent, true)
      else
        let contents := content.filterMap extractPayload
        if contents.length = 1 then (c, .value (.single contents.headI), true)
        else (c, .value (.seq contents), true)
    | .transportFail =>
      ({ c with connected := false, session := false }, .disconnectedError c.name, true)

/-- Splitting a character list at the first occurrence of `"__"`:
`some (before, after)` when the separator occurs, `none` when it does not.
This is the semantics of Python's `s.split("__", 1)` producing two parts,
and `(splitDunder s).isSome` is the semantics of `"__" in s`. -/
def splitDunder : List Char → Option (List Char × List Char)
  | [] => none
  | [_] => none
  | c :: d :: rest =>
    if c = '_' ∧ d = '_' then some ([], rest)
    else
      match splitDunder (d :: rest) with
      | some p => some (c :: p.1, p.2)
      | none => none

/-- String-level first-`"__"` split, as used by `MCPToolManager.call_tool`
(`manager.py` lines 189-192). -/
def splitDunderStr (s : String) : Option (String × String) :=
  match splitDunder s.data with
  | some p => some (String.mk p.1, String.mk p.2)
  | none => none

/-- The qualified-name composition `f"{server_name}__{mcp_tool.name}"`
(`manager.py` line 157). -/
def qualifyName (serverName toolName : String) : String :=
  serverName ++ "__" ++ toolName

/-- The manager-visible registry entry built by `_build_langchain_tools`
(`manager.py` lines 159-165): the qualified name, the description, the
generated argument model, and the back-reference to the owning client
(carried here as the server name) together with the unqualified tool name. -/
structure MCPLangChainTool where
  name : String
  description : String
  argsSchema : List (String × PyType × FieldInfo)
  serverName : String
  mcpToolName : String

/-- The per-tool conversion inside `_build_langchain_tools` (`manager.py`
lines 151-171).  The dynamic input model is created first; if that raises
(see `jsonSchemaToPydanticField`), the `except` on lines 170-171 logs and
skips the tool, modelled by `none`.  The description falls back to
`f"Tool {mcp_tool.name} from {server_name}"` when the server-sent description
is `None` or empty (Python `or` on falsy values). -/
def buildTool (serverName : String) (t : MCPTool) : Option MCPLangChainTool :=
  match createToolInputModel t.name t.inputSchema with
  | .error _ => none
  | .ok fs =>
    let fallback := "Tool " ++ t.name ++ " from " ++ serverName
    let desc :=
      match t.description with
      | some d => if d = "" then fallback else d
      | none => fallback
    some
      { name := qualifyName serverName t.name,
        description := desc,
        argsSchema := fs,
        serverName := serverName,
        mcpToolName := t.name }

/-- Embedding of `_build_langchain_tools` (`manager.py` lines 145-171): the
registry is rebuilt from scratch by iterating the clients map in insertion
order and, per client, its cached tools in catalog order. -/
def buildLangchainTools (clients : List (String × MCPClient)) : List MCPLangChainTool :=
  clients.flatMap (fun p => p.2.tools.filterMap (buildTool p.1))

/-- Python-dict assignment `d[k] = v` on an insertion-ordered association
list: an existing key keeps its position and gets the new value, a new key is
appended. -/
def dictInsert {α : Type} : List (String × α) → String → α → List (String × α)
  | [], k, v => [(k, v)]
  | (k', v') :: rest, k, v =>
    if k' = k then (k, v) :: rest else (k', v') :: dictInsert rest k v

/-- The state of `MCPToolManager` (`manager.py` lines 105-109): the enabled
configs, the insertion-ordered `clients` dict, the flattened registry, and
the `_initialized` flag. -/
structure MCPToolManager where
  configs : List MCPServerConfig
  clients : List (String × MCPClient)
  langchainTools : List MCPLangChainTool
  initialized : Bool

/-- `MCPToolManager.__init__` (`manager.py` lines 105-109): keeps only the
enabled configs, starts with no clients, no tools, not initialized. -/
def mkManager (configs : List MCPServerConfig) : MCPToolManager :=
  { configs := configs.filter (fun c => c.enabled),
    clients := [],
    langchainTools := [],
    initialized := false }

/-- One iteration of the `connect_all` loop (`manager.py` lines 127-134): a
fresh `MCPClient` is built from the config and connected; on success it is
stored under the config name, on failure the exception is caught, logged and
the loop continues with the clients map unchanged. -/
def connectAllStep (env : String → ConnectOutcome)
    (clients : List (String × MCPClient)) (config : MCPServerConfig) :
    List (String × MCPClient) :=
  if ((MCPClient.init config).connect (env config.name)).2 then
    dictInsert clients config.name ((MCPClient.init config).connect (env config.name)).1
  else clients

/-- Embedding of `MCPToolManager.connect_all` (`manager.py` lines 119-143).
When already initialized it returns immediately (logged no-op).  Otherwise it
attempts every enabled config in declaration order with per-server failure
isolation, rebuilds the registry from the resulting clients map, and sets
`_initialized = True` unconditionally.  The oracle `env` gives the connect
outcome per server name. -/
def MCPToolManager.connectAll (m : MCPToolManager) (env : String → ConnectOutcome) :
    MCPToolManager :=
  if m.initialized then m
  else
    let clients := m.configs.foldl (connectAllStep env) m.clients
    { m with
      clients := clients,
      langchainTools := buildLangchainTools clients,
      initialized := true }

/-- The message of the `RuntimeError` raised by `get_langchain_tools` when the
manager is not initialized (`manager.py` line 176). -/
def notInitializedMessage : String :=
  "MCPToolManager not initialized. Call connect_all() first."

/-- Embedding of `MCPToolManager.get_langchain_tools` (`manager.py` lines
173-177). -/
def MCPToolManager.getLangchainTools (m : MCPToolManager) :
    Except String (List MCPLangChainTool) :=
  if m.initialized then .ok m.langchainTools else .error notInitializedMessage

/-- The result of `MCPToolManager.call_tool` (`manager.py` lines 184-209):
`ValueError` for a name without `"__"` (line 190), `ValueError` for an
unknown server prefix (line 195), `RuntimeError(f"Server '{server_name}'
unavailable: ...")` when the lazy reconnection fails (line 207), or the
propagated session-level result. -/
inductive ManagerCallResult where
  | invalidNameError (toolName : String)
  | serverNotFoundError (server : String)
  | serverUnavailableError (server : String)
  | clientResult (r : ClientCallResult)
deriving DecidableEq

/-- Bookkeeping for one manager-level `call_tool`: how many `connect()`
attempts were made on the resolved client, and how many times the call was
forwarded to the client's `call_tool`. -/
structure CallTrace where
  connectAttempts : Nat
  toolCallAttempts : Nat
deriving DecidableEq

/-- Embedding of `MCPToolManager.call_tool` (`manager.py` lines 184-209):
validate the qualified name, split on the first `"__"`, resolve the server
prefix in the clients dict, lazily reconnect when the client's `_connected`
flag is down (exactly one attempt; a failure raises the unavailable error
without forwarding), and otherwise forward the unqualified tool name and the
arguments to the client's `call_tool`, propagating its result.  The mutated
client is written back to the clients map (in Python the dict entry is the
mutated object itself). -/
def MCPToolManager.callTool (m : MCPToolManager) (toolName : String)
    (arguments : List (String × Json)) (connectEnv : ConnectOutcome)
    (callEnv : CallOutcome) : MCPToolManager × ManagerCallResult × CallTrace :=
  match splitDunderStr toolName with
  | none => (m, .invalidNameError toolName, ⟨0, 0⟩)
  | some (serverName, mcpToolName) =>
    match m.clients.lookup serverName with
    | none => (m, .serverNotFoundError serverName, ⟨0, 0⟩)
    | some client =>
      if client.connected then
        (⟨m.configs, dictInsert m.clients serverName
            (client.callTool mcpToolName arguments callEnv).1,
          m.langchainTools, m.initialized⟩,
         .clientResult (client.callTool mcpToolName arguments callEnv).2.1,
         ⟨0, 1⟩)
      else if (client.connect connectEnv).2 then
        (⟨m.configs, dictInsert m.clients serverName
            (((client.connect connectEnv).1).callTool mcpToolName arguments callEnv).1,
          m.langchainTools, m.initialized⟩,
         .clientResult
           (((client.connect connectEnv).1).callTool mcpToolName arguments callEnv).2.1,
         ⟨1, 1⟩)
      else
        (⟨m.configs, dictInsert m.clients serverName (client.connect connectEnv).1,
          m.langchainTools, m.initialized⟩,
         .serverUnavailableError serverName,
         ⟨1, 0⟩)

/-- Embedding of `MCPToolManager.disconnect_all` (`manager.py` lines 211-219):
every client is disconnected (`MCPClient.disconnect` never raises, so the
loop cannot fail), then `self.clients.clear()` and
`self._langchain_tools.clear()` empty both containers and the flag is reset;
the per-client disconnects only mutate objects that are dropped by the
clear. -/
def MCPToolManager.disconnectAll (m : MCPToolManager) : MCPToolManager :=
  { m with
    clients := [],
    langchainTools := [],
    initialized := false }

/-- Derived description of one `connect_all` iteration's successful entry:
`some (name, client)` when connecting a fresh client for this config
succeeds, `none` when it fails. -/
def successEntry (env : String → ConnectOutcome) (config : MCPServerConfig) :
    Option (String × MCPClient) :=
  if ((MCPClient.init config).connect (env config.name)).2 then
    some (config.name, ((MCPClient.init config).connect (env config.name)).1)
  else none

/-- Derived description of the registry contribution of one config after
`connect_all`: the convertible tools of its catalog, qualified, when its
connect succeeds; nothing when it fails. -/
def expectedServerTools (env : String → ConnectOutcome) (config : MCPServerConfig) :
    List MCPLangChainTool :=
  match env config.name with
  | .ok ts => ts.filterMap (buildTool config.name)
  | .transportFail => []
  | .listFail => []

/-- Splitting at the boundary: when the separator `"__"` occurs nowhere in
`server` and `server` does not end in `'_'`, the first occurrence of `"__"`
in `server ++ "__" ++ tool` is exactly the inserted separator. -/
theorem splitDunder_boundary :
    ∀ (server tool : List Char), splitDunder server = none →
      server.getLast? ≠ some '_' →
      splitDunder (server ++ '_' :: '_' :: tool) = some (server, tool)
  | [], tool, _, _ => by simp [splitDunder]
  | [c], tool, _, h2 => by
    have hc : ¬c = '_' := by
      simp only [List.getLast?_singleton, ne_eq, Option.some.injEq] at h2
      exact h2
    simp [splitDunder, hc]
  | c :: d :: rest, tool, h1, h2 => by
    simp only [splitDunder] at h1
    by_cases hcd : c = '_' ∧ d = '_'
    · rw [if_pos hcd] at h1; exact absurd h1 (by simp)
    · rw [if_neg hcd] at h1
      have hrec : splitDunder (d :: rest) = none := by
        cases hdr : splitDunder (d :: rest) with
        | none => rfl
        | some p => rw [hdr] at h1; exact absurd h1 (by simp)
      have h2' : (d :: rest).getLast? ≠ some '_' := by
        rwa [List.getLast?_cons_cons] at h2
      have ih := splitDunder_boundary (d :: rest) tool hrec h2'
      show splitDunder (c :: d :: (rest ++ '_' :: '_' :: tool)) = _
      simp only [splitDunder, if_neg hcd]
      rw [show d :: (rest ++ '_' :: '_' :: tool) = (d :: rest) ++ '_' :: '_' :: tool from rfl,
        ih]

/-- A successful split decomposes its input: the two parts rejoined around the
separator give back the input. -/
theorem splitDunder_decomp :
    ∀ (s pre post : List Char), splitDunder s = some (pre, post) →
      s = pre ++ '_' :: '_' :: post
  | [], _, _, h => by simp [splitDunder] at h
  | [_], _, _, h => by simp [splitDunder] at h
  | c :: d :: rest, pre, post, h => by
    simp only [splitDunder] at h
    by_cases hcd : c = '_' ∧ d = '_'
    · rw [if_pos hcd] at h
      simp only [Option.some.injEq, Prod.mk.injEq] at h
      rw [← h.1, ← h.2]
      simp [hcd.1, hcd.2]
    · rw [if_neg hcd] at h
      cases hdr : splitDunder (d :: rest) with
      | none => rw [hdr] at h; exact absurd h (by simp)
      | some p =>
        rw [hdr] at h
        simp only [Option.some.injEq, Prod.mk.injEq] at h
        have ih := splitDunder_decomp (d :: rest) p.1 p.2 (by rw [hdr])
        rw [← h.1, ← h.2, List.cons_append, ← ih]

/-- The first occurrence of the separator is stable under appending on the
right: the prefix part is unchanged and the suffix part absorbs the
extension. -/
theorem splitDunder_extend :
    ∀ (s t pre post : List Char), splitDunder s = some (pre, post) →
      splitDunder (s ++ t) = some (pre, post ++ t)
  | [], _, _, _, h => by simp [splitDunder] at h
  | [_], _, _, _, h => by simp [splitDunder] at h
  | c :: d :: rest, t, pre, post, h => by
    simp only [splitDunder] at h
    show splitDunder (c :: d :: (rest ++ t)) = _
    simp only [splitDunder]
    by_cases hcd : c = '_' ∧ d = '_'
    · rw [if_pos hcd] at h
      simp only [Option.some.injEq, Prod.mk.injEq] at h
      rw [if_pos hcd, ← h.1, ← h.2]
    · rw [if_neg hcd] at h
      rw [if_neg hcd]
      cases hdr : splitDunder (d :: rest) with
      | none => rw [hdr] at h; exact absurd h (by simp)
      | some p =>
        rw [hdr] at h
        simp only [Option.some.injEq, Prod.mk.injEq] at h
        have ih := splitDunder_extend (d :: rest) t p.1 p.2 (by rw [hdr])
        rw [show d :: (rest ++ t) = (d :: rest) ++ t from rfl, ih, ← h.1, ← h.2]

/-- The unfolding equation of `splitDunder` on a list with at least two
elements. -/
theorem splitDunder_cons_cons (c d : Char) (rest : List Char) :
    splitDunder (c :: d :: rest) =
      if c = '_' ∧ d = '_' then some ([], rest)
      else
        match splitDunder (d :: rest) with
        | some p => some (c :: p.1, p.2)
        | none => none := rfl

/-- A list that contains the separator splits successfully. -/
theorem splitDunder_isSome_append :
    ∀ (a b : List Char), (splitDunder (a ++ '_' :: '_' :: b)).isSome = true
  | [], b => by simp [splitDunder]
  | [c], b => by
    show (splitDunder (c :: '_' :: '_' :: b)).isSome = true
    rw [splitDunder_cons_cons]
    by_cases hc : c = '_' ∧ ('_' : Char) = '_'
    · rw [if_pos hc]; rfl
    · rw [if_neg hc]
      have hin : splitDunder ('_' :: '_' :: b) = some ([], b) := by
        rw [splitDunder_cons_cons]; simp
      rw [hin]
      rfl
  | c :: d :: a', b => by
    show (splitDunder (c :: d :: (a' ++ '_' :: '_' :: b))).isSome = true
    rw [splitDunder_cons_cons]
    by_cases hcd : c = '_' ∧ d = '_'
    · rw [if_pos hcd]; rfl
    · rw [if_neg hcd]
      have ih := splitDunder_isSome_append (d :: a') b
      obtain ⟨p, hp⟩ := Option.isSome_iff_exists.mp ih
      rw [show d :: (a' ++ '_' :: '_' :: b) = (d :: a') ++ '_' :: '_' :: b from rfl, hp]
      rfl

/-- `splitDunder s = none` is exactly Python's `"__" not in s`: the separator
occurs nowhere as a contiguous substring. -/
theorem splitDunder_eq_none_iff (s : List Char) :
    splitDunder s = none ↔ ¬∃ a b, s = a ++ '_' :: '_' :: b := by
  constructor
  · rintro h ⟨a, b, rfl⟩
    have hs := splitDunder_isSome_append a b
    rw [h] at hs
    simp at hs
  · intro h
    cases hs : splitDunder s with
    | none => rfl
    | some p => exact absurd ⟨p.1, p.2, splitDunder_decomp s p.1 p.2 (by rw [hs])⟩ h

/-- Character-list view of the qualified-name composition. -/
theorem qualifyName_data (serverName toolName : String) :
    (qualifyName serverName toolName).data =
      serverName.data ++ '_' :: '_' :: toolName.data := by
  show ((serverName ++ "__") ++ toolName).data = _
  rw [String.data_append, String.data_append]
  simp

/-- Claim C2: for every server name containing no `"__"` — refined by the
counterexample to also exclude server names ending in `'_'` — and every tool
name (including tool names containing `"__"`), composing the qualified name
as `server ++ "__" ++ tool` and resolving it by splitting on the first
occurrence of `"__"` returns exactly the originating pair.  The hypothesis
`splitDunder server.data = none` is Python's `"__" not in server` (see
`splitDunder_eq_none_iff`). -/
theorem qualified_name_roundtrip (server tool : String)
    (h1 : splitDunder server.data = none)
    (h2 : server.data.getLast? ≠ some '_') :
    splitDunderStr (qualifyName server tool) = some (server, tool) := by
  rw [splitDunderStr, qualifyName_data,
    splitDunder_boundary server.data tool.data h1 h2]

/-- Witness for C2 at a concrete input: a server name with no `"__"` and no
trailing underscore round-trips even though the tool name contains `"__"`. -/
theorem qualified_name_roundtrip_witness :
    splitDunderStr (qualifyName "alpha" "read__file") = some ("alpha", "read__file") :=
  qualified_name_roundtrip "alpha" "read__file" (by decide) (by decide)

/-- Counterexample to C2 as stated: the server name `"x_"` contains no `"__"`,
yet resolving the composed name `"x___y"` returns `("x", "_y")`, not
`("x_", "y")` — the first `"__"` occurrence starts inside the trailing
underscore of the server name. -/
theorem qualified_name_roundtrip_fails_on_trailing_underscore :
    splitDunder "x_".data = none ∧
      splitDunderStr (qualifyName "x_" "y") = some ("x", "_y") := by
  constructor
  · decide
  · rfl

/-- Claim C9 (amended): resolution splits on the first occurrence of `"__"`,
so for a server name that itself contains `"__"` the composition is NOT
unambiguous: resolution never returns the originating pair for such a server
name (it returns the part of the server name before its first `"__"`). -/
theorem qualified_name_ambiguous_for_dunder_server (server tool : String)
    (h : (splitDunder server.data).isSome = true) :
    splitDunderStr (qualifyName server tool) ≠ some (server, tool) := by
  obtain ⟨p, hp⟩ := Option.isSome_iff_exists.mp h
  have hext := splitDunder_extend server.data ('_' :: '_' :: tool.data) p.1 p.2
    (by rw [hp])
  have hdec := splitDunder_decomp server.data p.1 p.2 (by rw [hp])
  intro hcontra
  rw [splitDunderStr, qualifyName_data, hext] at hcontra
  simp only [Option.some.injEq, Prod.mk.injEq] at hcontra
  have hdata : p.1 = server.data := congrArg String.data hcontra.1
  rw [← hdata] at hdec
  have hlen := congrArg List.length hdec
  simp [List.length_append] at hlen

/-- Witness for C9's amended statement at a concrete input. -/
theorem qualified_name_ambiguous_for_dunder_server_witness :
    splitDunderStr (qualifyName "a__b" "t") ≠ some ("a__b", "t") :=
  qualified_name_ambiguous_for_dunder_server "a__b" "t" (by decide)

/-- Counterexample to C9 as stated: for the server name `"a__b"` (which
contains `"__"`), resolving the composed qualified name recovers the server
prefix `"a"`, not the originating server `"a__b"`. -/
theorem qualified_name_dunder_server_not_recovered :
    splitDunderStr (qualifyName "a__b" "t") = some ("a", "b__t") := rfl

/-- Python-dict assignment of a key that is not yet present appends the entry. -/
theorem dictInsert_of_fresh {α : Type} (k : String) (v : α) :
    ∀ l : List (String × α), k ∉ l.map Prod.fst →
      dictInsert l k v = l ++ [(k, v)]
  | [], _ => rfl
  | (k', v') :: rest, h => by
    simp only [List.map_cons, List.mem_cons] at h
    push_neg at h
    simp only [dictInsert]
    rw [if_neg fun he => h.1 he.symm]
    rw [dictInsert_of_fresh k v rest h.2]
    rfl

/-- The `connect_all` loop over configs with pairwise-distinct names extends
the clients map by exactly the successful connection entries, in declaration
order. -/
theorem foldl_connectAllStep (env : String → ConnectOutcome) :
    ∀ (configs : List MCPServerConfig) (acc : List (String × MCPClient)),
      (∀ cfg ∈ configs, cfg.name ∉ acc.map Prod.fst) →
      (configs.map MCPServerConfig.name).Nodup →
      configs.foldl (connectAllStep env) acc = acc ++ configs.filterMap (successEntry env)
  | [], acc, _, _ => by simp
  | cfg :: rest, acc, hfresh, hnd => by
    rw [List.foldl_cons]
    rw [List.map_cons, List.nodup_cons] at hnd
    by_cases hc : ((MCPClient.init cfg).connect (env cfg.name)).2 = true
    · have hstep : connectAllStep env acc cfg =
          acc ++ [(cfg.name, ((MCPClient.init cfg).connect (env cfg.name)).1)] := by
        have h1 : connectAllStep env acc cfg =
            dictInsert acc cfg.name ((MCPClient.init cfg).connect (env cfg.name)).1 := by
          simp [connectAllStep, hc]
        rw [h1]
        exact dictInsert_of_fresh cfg.name _ acc (hfresh cfg (List.mem_cons_self cfg rest))
      have hse : successEntry env cfg =
          some (cfg.name, ((MCPClient.init cfg).connect (env cfg.name)).1) := by
        simp [successEntry, hc]
      have hacc' : ∀ c ∈ rest, c.name ∉
          (acc ++ [(cfg.name, ((MCPClient.init cfg).connect (env cfg.name)).1)]).map Prod.fst := by
        intro c hcm
        rw [List.map_append, List.mem_append]
        rintro (hl | hr)
        · exact hfresh c (List.mem_cons_of_mem cfg hcm) hl
        · simp only [List.map_cons, List.map_nil, List.mem_singleton] at hr
          exact hnd.1 (hr ▸ List.mem_map_of_mem MCPServerConfig.name hcm)
      rw [hstep, foldl_connectAllStep env rest _ hacc' hnd.2]
      simp [List.filterMap_cons, hse, List.append_assoc]
    · have hstep : connectAllStep env acc cfg = acc := by
        simp [connectAllStep, hc]
      have hse : successEntry env cfg = none := by
        simp [successEntry, hc]
      have hacc' : ∀ c ∈ rest, c.name ∉ acc.map Prod.fst :=
        fun c hcm => hfresh c (List.mem_cons_of_mem cfg hcm)
      rw [hstep, foldl_connectAllStep env rest acc hacc' hnd.2]
      simp [List.filterMap_cons, hse]

/-- Rebuilding the registry from the successful connection entries yields, in
declaration order, each successful server's convertible tools. -/
theorem buildLangchainTools_successEntries (env : String → ConnectOutcome) :
    ∀ configs : List MCPServerConfig,
      buildLangchainTools (configs.filterMap (successEntry env)) =
        configs.flatMap (expectedServerTools env)
  | [] => rfl
  | cfg :: rest => by
    have ih := buildLangchainTools_successEntries env rest
    simp only [buildLangchainTools] at ih
    cases h : env cfg.name with
    | ok ts =>
      have hc2 : (MCPClient.init cfg).connect (env cfg.name) =
          (⟨cfg, true, ts, true⟩, true) := by rw [h]; rfl
      have hse : successEntry env cfg = some (cfg.name, ⟨cfg, true, ts, true⟩) := by
        simp [successEntry, hc2]
      have het : expectedServerTools env cfg = ts.filterMap (buildTool cfg.name) := by
        simp [expectedServerTools, h]
      simp only [List.filterMap_cons, hse, List.flatMap_cons, het, buildLangchainTools]
      rw [ih]
    | transportFail =>
      have hc2 : (MCPClient.init cfg).connect (env cfg.name) =
          (⟨cfg, false, [], false⟩, false) := by rw [h]; rfl
      have hse : successEntry env cfg = none := by
        simp [successEntry, hc2]
      have het : expectedServerTools env cfg = [] := by
        simp [expectedServerTools, h]
      simp only [List.filterMap_cons, hse, List.flatMap_cons, het, buildLangchainTools]
      rw [ih, List.nil_append]
    | listFail =>
      have hc2 : (MCPClient.init cfg).connect (env cfg.name) =
          (⟨cfg, true, [], false⟩, false) := by rw [h]; rfl
      have hse : successEntry env cfg = none := by
        simp [successEntry, hc2]
      have het : expectedServerTools env cfg = [] := by
        simp [expectedServerTools, h]
      simp only [List.filterMap_cons, hse, List.flatMap_cons, het, buildLangchainTools]
      rw [ih, List.nil_append]

/-- Claim C1 (amended): for every list of enabled, uniquely named server
configs, after `connect_all` the manager is initialized (even if zero servers
connected), its clients map holds exactly the successfully connected servers
in declaration order (per-server failures are caught and do not abort the
remaining attempts), and its registry is the concatenation, in declaration
order, of each connected server's qualified tools whose input-schema
conversion succeeds (a tool whose conversion raises is skipped — see the
counterexample). -/
theorem connectAll_per_server_isolation (configs : List MCPServerConfig)
    (env : String → ConnectOutcome)
    (hen : ∀ cfg ∈ configs, cfg.enabled = true)
    (hnd : (configs.map MCPServerConfig.name).Nodup) :
    ((mkManager configs).connectAll env).initialized = true ∧
    ((mkManager configs).connectAll env).clients =
      configs.filterMap (successEntry env) ∧
    ((mkManager configs).connectAll env).langchainTools =
      configs.flatMap (expectedServerTools env) := by
  have hfilter : configs.filter (fun c => c.enabled) = configs :=
    List.filter_eq_self.mpr hen
  have hm : mkManager configs = ⟨configs, [], [], false⟩ := by
    simp [mkManager, hfilter]
  rw [hm]
  have hfold := foldl_connectAllStep env configs [] (by simp) hnd
  refine ⟨rfl, ?_, ?_⟩
  · show configs.foldl (connectAllStep env) [] = _
    rw [hfold, List.nil_append]
  · show buildLangchainTools (configs.foldl (connectAllStep env) []) = _
    rw [hfold, List.nil_append, buildLangchainTools_successEntries]

/-- Config of a server whose connect attempt will fail in the witness run. -/
def cfgAlpha : MCPServerConfig :=
  { name := "alpha", transport := "sse", enabled := true }

/-- Config of a server whose connect attempt will succeed in the witness run. -/
def cfgBeta : MCPServerConfig :=
  { name := "beta", transport := "stdio", enabled := true }

/-- A well-formed tool with one required integer parameter. -/
def toolPing : MCPTool :=
  { name := "ping",
    description := some "Ping tool",
    inputSchema :=
      { properties :=
          [("x", { type_ := .single "integer", description := none, default := none })],
        required := ["x"] } }

/-- Connect oracle for the witness run: `alpha` fails at the transport,
`beta` succeeds with one tool. -/
def envAlphaFails : String → ConnectOutcome :=
  fun n => if n = "beta" then .ok [toolPing] else .transportFail

/-- Witness for C1 at a concrete input: the first server fails, the second
still connects, the manager initializes, and the registry holds exactly the
second server's qualified tool. -/
theorem connectAll_per_server_isolation_witness :
    (((mkManager [cfgAlpha, cfgBeta]).connectAll envAlphaFails).initialized = true ∧
     ((mkManager [cfgAlpha, cfgBeta]).connectAll envAlphaFails).clients =
       [cfgAlpha, cfgBeta].filterMap (successEntry envAlphaFails) ∧
     ((mkManager [cfgAlpha, cfgBeta]).connectAll envAlphaFails).langchainTools =
       [cfgAlpha, cfgBeta].flatMap (expectedServerTools envAlphaFails)) ∧
    ((mkManager [cfgAlpha, cfgBeta]).connectAll envAlphaFails).clients.map Prod.fst =
      ["beta"] ∧
    ((mkManager [cfgAlpha, cfgBeta]).connectAll envAlphaFails).langchainTools.map
        MCPLangChainTool.name = ["beta__ping"] :=
  ⟨connectAll_per_server_isolation [cfgAlpha, cfgBeta] envAlphaFails
      (by decide) (by decide),
    by constructor <;> rfl⟩

/-- A tool whose only parameter declares the union type `["string", "null"]`;
converting it raises `TypeError` inside `_json_schema_to_pydantic_field`. -/
def toolUnconvertible : MCPTool :=
  { name := "weird",
    description := some "Tool with a union-typed parameter",
    inputSchema :=
      { properties :=
          [("x", { type_ := .multi ["string", "null"], description := none, default := none })],
        required := [] } }

/-- Config for the counterexample server. -/
def cfgGamma : MCPServerConfig :=
  { name := "gamma", transport := "sse", enabled := true }

/-- Connect oracle for the counterexample run: every connect succeeds and
reports the unconvertible tool. -/
def envGammaOk : String → ConnectOutcome :=
  fun _ => .ok [toolUnconvertible]

/-- Counterexample to C1 as stated: the single configured server connects
successfully and its catalog contains the tool `weird`, yet the registry
after `connect_all` is empty — the tool's schema conversion raises and
`_build_langchain_tools` skips it, so the registry does not contain "exactly
the qualified tools of the successfully connected servers". -/
theorem connectAll_registry_drops_unconvertible_tool :
    ((mkManager [cfgGamma]).connectAll envGammaOk).clients.map
        (fun p => (p.1, p.2.connected, p.2.tools.map MCPTool.name)) =
      [("gamma", true, ["weird"])] ∧
    ((mkManager [cfgGamma]).connectAll envGammaOk).langchainTools = [] := by
  constructor <;> rfl

/-- Under the pydantic v2 `Field` model, a stored field default is never the
`Ellipsis` object, so the test on `manager.py` line 52
(`field_info.default is ...`) can never succeed on a field produced by
`_json_schema_to_pydantic_field`. -/
theorem pydanticFieldInit_not_ellipsis (d : DefaultVal) (s : String) :
    (pydanticFieldInit d s).default.isEllipsis = false := by
  cases d <;> rfl

/-- Claim C3 (code bug, evaluated at the failing input): for the schema
`properties = {"y": {"type": "string"}}, required = []` the claim (and the
inline comment on `manager.py` line 51) says the non-required property `y`
becomes nullable with default null; but because pydantic v2's `Field` stores
`PydanticUndefined` — never the `Ellipsis` object — for an omitted default,
the `field_info.default is ...` test on line 52 is always false and the
rebuild branch is dead code: `y` stays non-nullable with an undefined default
and is therefore required in the generated model. -/
theorem createToolInputModel_optional_prop_stays_required :
    createToolInputModel "sample"
        { properties :=
            [("y", { type_ := .single "string", description := none, default := none })],
          required := [] } =
      .ok [("y", ⟨.str, false⟩, ⟨.undefined, ""⟩)] ∧
    FieldInfo.isRequired ⟨.undefined, ""⟩ = true ∧
    DefaultVal.isEllipsis (FieldInfo.default ⟨.undefined, ""⟩) = false :=
  ⟨rfl, rfl, rfl⟩

/-- Claim C4: for every known server whose client is not connected,
`call_tool` makes exactly one reconnection attempt before forwarding; if the
reconnect succeeds the forwarded session-level call happens (once) and its
result is propagated, and if it fails the manager raises the unavailable
error for that server and never forwards the call. -/
theorem manager_callTool_single_reconnect (m : MCPToolManager)
    (toolName serverName mcpToolName : String) (arguments : List (String × Json))
    (client : MCPClient) (connectEnv : ConnectOutcome) (callEnv : CallOutcome)
    (hsplit : splitDunderStr toolName = some (serverName, mcpToolName))
    (hlook : m.clients.lookup serverName = some client)
    (hdis : client.connected = false) :
    (m.callTool toolName arguments connectEnv callEnv).2.2.connectAttempts = 1 ∧
    ((client.connect connectEnv).2 = true →
      (m.callTool toolName arguments connectEnv callEnv).2.2.toolCallAttempts = 1 ∧
      (m.callTool toolName arguments connectEnv callEnv).2.1 =
        .clientResult
          (((client.connect connectEnv).1).callTool mcpToolName arguments callEnv).2.1) ∧
    ((client.connect connectEnv).2 = false →
      (m.callTool toolName arguments connectEnv callEnv).2.2.toolCallAttempts = 0 ∧
      (m.callTool toolName arguments connectEnv callEnv).2.1 =
        .serverUnavailableError serverName) := by
  by_cases hc : (client.connect connectEnv).2 = true
  · simp [MCPToolManager.callTool, hsplit, hlook, hdis, hc]
  · simp only [Bool.not_eq_true] at hc
    simp [MCPToolManager.callTool, hsplit, hlook, hdis, hc]

/-- Manager state for the C4 witness: one known server `gamma` whose client
is currently disconnected. -/
def managerDown : MCPToolManager :=
  { configs := [cfgGamma],
    clients := [("gamma", ⟨cfgGamma, false, [toolPing], false⟩)],
    langchainTools := [],
    initialized := true }

/-- Witness for C4 at a concrete input: a call routed to the disconnected
`gamma` client performs exactly one reconnect attempt and behaves as claimed
in both reconnect outcomes. -/
theorem manager_callTool_single_reconnect_witness :
    (managerDown.callTool "gamma__ping" [] (.ok [toolPing])
        (.success [.text "pong"])).2.2.connectAttempts = 1 ∧
    (((⟨cfgGamma, false, [toolPing], false⟩ : MCPClient).connect (.ok [toolPing])).2 = true →
      (managerDown.callTool "gamma__ping" [] (.ok [toolPing])
          (.success [.text "pong"])).2.2.toolCallAttempts = 1 ∧
      (managerDown.callTool "gamma__ping" [] (.ok [toolPing])
          (.success [.text "pong"])).2.1 =
        .clientResult
          ((((⟨cfgGamma, false, [toolPing], false⟩ : MCPClient).connect
              (.ok [toolPing])).1).callTool "ping" [] (.success [.text "pong"])).2.1) ∧
    (((⟨cfgGamma, false, [toolPing], false⟩ : MCPClient).connect (.ok [toolPing])).2 = false →
      (managerDown.callTool "gamma__ping" [] (.ok [toolPing])
          (.success [.text "pong"])).2.2.toolCallAttempts = 0 ∧
      (managerDown.callTool "gamma__ping" [] (.ok [toolPing])
          (.success [.text "pong"])).2.1 = .serverUnavailableError "gamma") :=
  manager_callTool_single_reconnect managerDown "gamma__ping" "gamma" "ping" []
    ⟨cfgGamma, false, [toolPing], false⟩ (.ok [toolPing]) (.success [.text "pong"])
    rfl rfl rfl

/-- Claim C5 (amended): for a session-level `call_tool` on a client with a
session handle, an empty content list yields the no-content sentinel; when
exactly one payload is extracted from the blocks (a block carrying neither a
text nor a binary payload is skipped by the `hasattr` chain) it is returned
unwrapped; otherwise the ordered sequence of extracted payloads is returned
(possibly empty when blocks exist but none carries a payload). -/
theorem client_callTool_normalization (c : MCPClient) (toolName : String)
    (arguments : List (String × Json)) (content : List ContentBlock)
    (hs : c.session = true) :
    (content = [] →
      (c.callTool toolName arguments (.success content)).2.1 = .value .noContent) ∧
    (∀ p, content.filterMap extractPayload = [p] → content ≠ [] →
      (c.callTool toolName arguments (.success content)).2.1 = .value (.single p)) ∧
    ((content.filterMap extractPayload).length ≠ 1 → content ≠ [] →
      (c.callTool toolName arguments (.success content)).2.1 =
        .value (.seq (content.filterMap extractPayload))) := by
  refine ⟨?_, ?_, ?_⟩
  · intro h
    subst h
    simp [MCPClient.callTool, hs]
  · intro p hp hne
    have hempty : content.isEmpty = false := by
      cases content with
      | nil => exact absurd rfl hne
      | cons a l => rfl
    simp [MCPClient.callTool, hs, hempty, hp]
  · intro hlen hne
    have hempty : content.isEmpty = false := by
      cases content with
      | nil => exact absurd rfl hne
      | cons a l => rfl
    simp [MCPClient.callTool, hs, hempty, hlen]

/-- Config of the connected client used by several concrete runs. -/
def cfgDelta : MCPServerConfig :=
  { name := "delta", transport := "sse", enabled := true }

/-- A client in the Connected state, reached by a successful connect with an
empty catalog. -/
def clientDelta : MCPClient :=
  ((MCPClient.init cfgDelta).connect (.ok [])).1

/-- Witness for C5 at concrete inputs: zero blocks give the sentinel, one
text block is unwrapped, and two payload-bearing blocks come back as an
ordered sequence. -/
theorem client_callTool_normalization_witness :
    ((clientDelta.callTool "t" [] (.success [])).2.1 = .value .noContent) ∧
    ((clientDelta.callTool "t" [] (.success [.text "a"])).2.1 = .value (.single "a")) ∧
    ((clientDelta.callTool "t" [] (.success [.text "a", .data "b"])).2.1 =
      .value (.seq ["a", "b"])) :=
  ⟨(client_callTool_normalization clientDelta "t" [] [] rfl).1 rfl,
   (client_callTool_normalization clientDelta "t" [] [.text "a"] rfl).2.1 "a" rfl
     (by decide),
   (client_callTool_normalization clientDelta "t" [] [.text "a", .data "b"] rfl).2.2
     (by decide) (by decide)⟩

/-- Counterexample to C5 as stated: the server returns exactly one content
block, an embedded resource carrying neither text nor binary payload; the
code returns the empty sequence `[]` (Python `contents` with no extracted
payloads), not the block's payload unwrapped. -/
theorem client_callTool_resource_block_not_unwrapped :
    (clientDelta.session = true ∧ clientDelta.connected = true) ∧
    (clientDelta.callTool "t" [] (.success [.resource])).2.1 = .value (.seq []) :=
  ⟨⟨rfl, rfl⟩, rfl⟩

/-- Claim C6: on a connected session, a transport-level failure during
`call_tool` clears the connected flag and the session handle (the session
ends the call disconnected — it never reconnects itself) and raises the
disconnected error naming the server. -/
theorem client_callTool_transport_failure_disconnects (c : MCPClient)
    (toolName : String) (arguments : List (String × Json))
    (hconn : c.connected = true) (hsess : c.session = true) :
    ((c.callTool toolName arguments .transportFail).1.connected = false ∧
     (c.callTool toolName arguments .transportFail).1.session = false) ∧
    (c.callTool toolName arguments .transportFail).2.1 = .disconnectedError c.name := by
  simp [MCPClient.callTool, hsess]

/-- Witness for C6 at a concrete input. -/
theorem client_callTool_transport_failure_disconnects_witness :
    (((clientDelta.callTool "t" [] .transportFail).1.connected = false ∧
      (clientDelta.callTool "t" [] .transportFail).1.session = false) ∧
     (clientDelta.callTool "t" [] .transportFail).2.1 =
       .disconnectedError clientDelta.name) :=
  client_callTool_transport_failure_disconnects clientDelta "t" [] rfl rfl

/-- Claim C7 (amended): the `tools` property of a never-connected client
returns the empty catalog (it performs no I/O and raises nothing), and after
a successful connect it returns exactly the catalog cached by that connect. -/
theorem client_tools_cached_catalog (config : MCPServerConfig) (ts : List MCPTool) :
    (MCPClient.init config).tools = [] ∧
    (((MCPClient.init config).connect (.ok ts)).1).tools = ts :=
  ⟨rfl, rfl⟩

/-- Counterexample to C7 as stated: on a freshly constructed (never
connected) client the `tools` property evaluates to the empty list — a
normal return value, not a raised `NotConnectedError`; the property
(`client.py` lines 58-60) has no guard at all. -/
theorem client_tools_never_connected_returns_empty :
    (MCPClient.init cfgGamma).tools = [] ∧
    (MCPClient.init cfgGamma).connected = false ∧
    (MCPClient.init cfgGamma).session = false :=
  ⟨rfl, rfl, rfl⟩

/-- Claim C8: `disconnect_all` is idempotent and safe before initialization:
on a freshly constructed manager it is a no-op (and so is calling it twice),
on any manager a second call after a first is a no-op, and after a
`disconnect_all` the tools getter fails with the not-initialized error. -/
theorem disconnectAll_idempotent_safe (configs : List MCPServerConfig)
    (m : MCPToolManager) :
    (mkManager configs).disconnectAll = mkManager configs ∧
    ((mkManager configs).disconnectAll).disconnectAll = mkManager configs ∧
    m.disconnectAll.disconnectAll = m.disconnectAll ∧
    m.disconnectAll.getLangchainTools = .error notInitializedMessage :=
  ⟨rfl, rfl, rfl, rfl⟩

/-- With a session handle present, the session-level `call_tool` always
forwards the invocation (the guard on `client.py` line 120 passes). -/
theorem callTool_attempted_of_session {c : MCPClient} (hs : c.session = true)
    (toolName : String) (arguments : List (String × Json)) (outcome : CallOutcome) :
    (c.callTool toolName arguments outcome).2.2 = true := by
  cases outcome with
  | success content =>
    by_cases he : content.isEmpty = true
    · simp [MCPClient.callTool, hs, he]
    · by_cases hl : (content.filterMap extractPayload).length = 1
      · simp [MCPClient.callTool, hs, he, hl]
      · simp [MCPClient.callTool, hs, he, hl]
  | transportFail => simp [MCPClient.callTool, hs]

/-- With a session handle present, the session-level `call_tool` never raises
the not-connected guard error. -/
theorem callTool_no_guard_error_of_session {c : MCPClient} (hs : c.session = true)
    (toolName : String) (arguments : List (String × Json)) (outcome : CallOutcome)
    (s : String) :
    (c.callTool toolName arguments outcome).2.1 ≠ .notConnectedError s := by
  cases outcome with
  | success content =>
    by_cases he : content.isEmpty = true
    · simp [MCPClient.callTool, hs, he]
    · by_cases hl : (content.filterMap extractPayload).length = 1
      · simp [MCPClient.callTool, hs, he, hl]
      · simp [MCPClient.callTool, hs, he, hl]
  | transportFail => simp [MCPClient.callTool, hs]

/-- Claim C10: the not-connected guard of the session-level `call_tool` tests
the protocol-session handle, not the connected flag.  After a connect attempt
that fails once the session is established (during initialize/tool listing),
the flag is down but the handle remains set, and a direct session-level
`call_tool` passes the guard: it never raises the not-connected error and the
invocation is attempted. -/
theorem client_callTool_guard_tests_session_handle (c : MCPClient)
    (toolName : String) (arguments : List (String × Json)) (callEnv : CallOutcome) :
    ((c.connect .listFail).1.connected = false ∧
     (c.connect .listFail).1.session = true) ∧
    ((c.connect .listFail).1.callTool toolName arguments callEnv).2.2 = true ∧
    (∀ s, ((c.connect .listFail).1.callTool toolName arguments callEnv).2.1 ≠
      .notConnectedError s) := by
  have hconn : (c.connect .listFail).1.connected = false := by
    cases hc : c.connected <;> simp [MCPClient.connect, MCPClient.disconnect, hc]
  have hsess : (c.connect .listFail).1.session = true := by
    cases hc : c.connected <;> simp [MCPClient.connect, MCPClient.disconnect, hc]
  exact ⟨⟨hconn, hsess⟩, callTool_attempted_of_session hsess toolName arguments callEnv,
    fun s => callTool_no_guard_error_of_session hsess toolName arguments callEnv s⟩
